import Mathlib

/-!
Shallow embedding of the PKCS#7 SignedData wrapper library
(CryptPkcs7 implementation file of this repository) and proofs about it.

Modelling conventions:
* byte buffers are `List Nat` (each entry a byte value; arithmetic done in
  `Nat` with explicit `% 256` / `% 65536` where the C code casts);
* a C out-parameter is a field of an output record; the field is `none`
  when the function returned without writing through the pointer, and
  `some v` when it wrote `v` (`some none` for a pointer set to NULL);
* reading `P7Data[i]` is `byteAt p7 i`; the C code has no bounds check, so an
  out-of-range read (undefined behaviour in C) is made explicit as a
  distinguished `oob` outcome carrying the offending index;
* `malloc` success/failure is explicit where a claim depends on it: a
  boolean parameter for `WrapPkcs7Data`, and an allocation oracle
  `alloc : Nat → Bool` (success of the k-th modelled allocation) for the
  serialisation stages (`serLoopA` and the `...A` variants of the
  operations); the plain `serLoop` / operation definitions describe the
  executions in which every allocation succeeds, and bridge lemmas state
  that they are the always-succeeding-allocator case of the `...A`
  variants;
* the OpenSSL decoder (`d2i_PKCS7`) and object model are external
  collaborators per the specification, modelled by an abstract
  decoded-`SignedData` value handed to the operations.
-/

namespace EdkPkcs7

/-- The 9-byte PKCS#7 signedData OID constant `mOidValue` from the source. -/
def mOidValue : List Nat := [0x2A, 0x86, 0x48, 0x86, 0xF7, 0x0D, 0x01, 0x07, 0x02]

/-- Reading one byte at an index of a buffer; `none` is the out-of-range
branch of indexing (an out-of-bounds pointer read in the C source). -/
def byteAt : List Nat → Nat → Option Nat
  | [], _ => none
  | b :: _, 0 => some b
  | _ :: rest, n + 1 => byteAt rest n

/-- Embeds `CompareMem (P7Data + i, expected, n) == 0` byte by byte:
compares `p7[i..]` against the expected byte list, stopping at the first
mismatch; an attempt to read past the end of `p7` before a mismatch is the
out-of-range branch, reported as `.error` with the offending index. -/
def cmpAt (p7 : List Nat) (i : Nat) : List Nat → Except Nat Bool
  | [] => .ok true
  | e :: rest =>
    match byteAt p7 i with
    | none => .error i
    | some b => if b = e then cmpAt p7 (i + 1) rest else .ok false

/-- The wrapped-ContentInfo detection of `WrapPkcs7Data` (source lines
95-102): `Wrapped` is TRUE iff `P7Data[4] == 0x06`, `P7Data[5] == 0x09`,
`P7Data[6..14]` equal `mOidValue`, `P7Data[15] == 0xA0` and
`P7Data[16] == 0x82`, with C short-circuit evaluation order.  The code has
no length check, so `.error i` records a read at index `i` outside the
buffer. -/
def wrapDetect (p7 : List Nat) : Except Nat Bool :=
  match byteAt p7 4 with
  | none => .error 4
  | some b4 =>
    if b4 = 0x06 then
      match byteAt p7 5 with
      | none => .error 5
      | some b5 =>
        if b5 = 0x09 then
          match cmpAt p7 6 mOidValue with
          | .error i => .error i
          | .ok false => .ok false
          | .ok true =>
            match byteAt p7 15 with
            | none => .error 15
            | some b15 =>
              if b15 = 0xA0 then
                match byteAt p7 16 with
                | none => .error 16
                | some b16 => .ok (decide (b16 = 0x82))
              else .ok false
        else .ok false
    else .ok false

/-- The 19-byte ContentInfo header synthesised by `WrapPkcs7Data` for a
buffer of length `L` (source lines 120-153): `30 82`, the 16-bit value
`*WrapDataSize - 4 = L + 15` big-endian (the C code casts through UINT16,
hence the `% 65536`), `06 09`, the OID, `A0 82`, and the 16-bit value `L`
big-endian. -/
def wrapHeader (L : Nat) : List Nat :=
  [0x30, 0x82, ((L + 15) % 65536) / 256, ((L + 15) % 65536) % 256, 0x06, 0x09]
    ++ mOidValue
    ++ [0xA0, 0x82, (L % 65536) / 256, (L % 65536) % 256]

/-- Caller-visible effect of one `WrapPkcs7Data` call: the returned
BOOLEAN and the three out-parameters (`none` = never written through;
for `wrapData`, `some none` = written NULL). -/
structure WrapOut where
  ret : Bool
  wrapFlag : Option Bool
  wrapData : Option (Option (List Nat))
  wrapDataSize : Option Nat
deriving DecidableEq, Repr

/-- A `WrapPkcs7Data` execution either hits an out-of-range detection read
(undefined behaviour in the C source) or completes with a `WrapOut`. -/
inductive WrapExec where
  | oob (i : Nat)
  | done (o : WrapOut)
deriving DecidableEq, Repr

/-- Embedding of `WrapPkcs7Data` (source lines 80-163).  `allocOk` models
whether the `malloc` of the 19-byte-extended buffer succeeds.  Wrapped
input: out data aliases the input, size aliases the input length, flag
TRUE, return TRUE.  Unwrapped input: `*WrapDataSize` is written (length
plus 19) before the allocation, then on allocation failure `*WrapData` is
the NULL result of `malloc`, `*WrapFlag` is FALSE and the return is FALSE;
on success the header plus the original bytes are produced. -/
def WrapPkcs7Data (p7 : List Nat) (allocOk : Bool) : WrapExec :=
  match wrapDetect p7 with
  | .error i => .oob i
  | .ok true => .done ⟨true, some true, some (some p7), some p7.length⟩
  | .ok false =>
    if allocOk then
      .done ⟨true, some false, some (some (wrapHeader p7.length ++ p7)), some (p7.length + 19)⟩
    else
      .done ⟨false, some false, some none, some (p7.length + 19)⟩


/-- Auxiliary: the synthesised header is 19 bytes long. -/
theorem wrapHeader_length (L : Nat) : (wrapHeader L).length = 19 := by
  simp [wrapHeader, mOidValue]

/-- Auxiliary: the synthesised envelope always satisfies the detection
predicate again (its fixed bytes at offsets 4..16 are exactly the pattern
the detector tests). -/
theorem wrapDetect_wrapHeader (L : Nat) (B : List Nat) :
    wrapDetect (wrapHeader L ++ B) = .ok true := rfl

/-- C1: the claim says every input shorter than 17 bytes makes
`WrapPkcs7Data` fail with no detection read at or beyond the buffer
length.  The code has no length check: on the 3-byte input `30 82 04` the
detection takes the out-of-range indexing branch at index 4 (an
out-of-bounds read in C), and the in-bounds 16-byte input of zeros is not
failed at all but classified as unwrapped and successfully wrapped. -/
theorem C1_short_input_behaviour :
    WrapPkcs7Data [0x30, 0x82, 0x04] true = .oob 4 ∧
    WrapPkcs7Data (List.replicate 16 0) true =
      .done ⟨true, some false,
        some (some (wrapHeader 16 ++ List.replicate 16 0)), some 35⟩ := by
  exact ⟨rfl, rfl⟩

/-- C3: on any buffer that fails the wrapped-detection predicate (with all
detection reads in bounds) and whose 16-bit length fields fit, a
successful allocation yields exactly the 19-byte header
`30 82 <hi(L+15)> <lo(L+15)> 06 09 <OID> A0 82 <hi L> <lo L>` followed by
the original bytes, with output size L + 19. -/
theorem C3_wrap_layout (p7 : List Nat) (h1 : wrapDetect p7 = .ok false)
    (h2 : p7.length + 15 < 65536) :
    WrapPkcs7Data p7 true =
      .done ⟨true, some false,
        some (some (([0x30, 0x82, (p7.length + 15) / 256, (p7.length + 15) % 256, 0x06, 0x09]
            ++ mOidValue
            ++ [0xA0, 0x82, p7.length / 256, p7.length % 256]) ++ p7)),
        some (p7.length + 19)⟩ ∧
    (wrapHeader p7.length ++ p7).length = p7.length + 19 := by
  have hL : p7.length % 65536 = p7.length := Nat.mod_eq_of_lt (by omega)
  have hL15 : (p7.length + 15) % 65536 = p7.length + 15 := Nat.mod_eq_of_lt h2
  have hhd : wrapHeader p7.length =
      [0x30, 0x82, (p7.length + 15) / 256, (p7.length + 15) % 256, 0x06, 0x09]
        ++ mOidValue
        ++ [0xA0, 0x82, p7.length / 256, p7.length % 256] := by
    simp [wrapHeader, hL, hL15]
  constructor
  · simp [WrapPkcs7Data, h1, hhd]
  · have := wrapHeader_length p7.length
    simp [List.length_append, this]
    omega

/-- Witness for C3 at the concrete 17-byte all-zero input. -/
theorem C3_wrap_layout_witness :
    WrapPkcs7Data (List.replicate 17 0) true =
      .done ⟨true, some false,
        some (some (([0x30, 0x82, (17 + 15) / 256, (17 + 15) % 256, 0x06, 0x09]
            ++ mOidValue
            ++ [0xA0, 0x82, 17 / 256, 17 % 256]) ++ List.replicate 17 0)),
        some (17 + 19)⟩ ∧
    (wrapHeader 17 ++ List.replicate 17 0).length = 17 + 19 :=
  C3_wrap_layout (List.replicate 17 0) rfl (by decide)

/-- C4: for any bare blob `B` (one failing the wrapped-detection
predicate), `WrapPkcs7Data` synthesises `wrap B = wrapHeader |B| ++ B`,
and applying `WrapPkcs7Data` again to `wrap B` reports wrapped = TRUE and
returns exactly `wrap B` and its length as an alias, with no second
header added (the result has length |B| + 19, not |B| + 38), for any
allocator state. -/
theorem C4_wrap_idempotent (B : List Nat) (h : wrapDetect B = .ok false) (a : Bool) :
    WrapPkcs7Data B true =
      .done ⟨true, some false, some (some (wrapHeader B.length ++ B)), some (B.length + 19)⟩ ∧
    WrapPkcs7Data (wrapHeader B.length ++ B) a =
      .done ⟨true, some true, some (some (wrapHeader B.length ++ B)),
        some (wrapHeader B.length ++ B).length⟩ ∧
    (wrapHeader B.length ++ B).length = B.length + 19 := by
  refine ⟨by simp [WrapPkcs7Data, h], ?_, ?_⟩
  · simp [WrapPkcs7Data, wrapDetect_wrapHeader]
  · simp [List.length_append, wrapHeader_length]
    omega

/-- Witness for C4 at the concrete 17-byte all-zero bare blob. -/
theorem C4_wrap_idempotent_witness :
    WrapPkcs7Data (List.replicate 17 0) true =
      .done ⟨true, some false, some (some (wrapHeader 17 ++ List.replicate 17 0)),
        some (17 + 19)⟩ ∧
    WrapPkcs7Data (wrapHeader 17 ++ List.replicate 17 0) false =
      .done ⟨true, some true, some (some (wrapHeader 17 ++ List.replicate 17 0)),
        some (wrapHeader 17 ++ List.replicate 17 0).length⟩ ∧
    (wrapHeader 17 ++ List.replicate 17 0).length = 17 + 19 :=
  C4_wrap_idempotent (List.replicate 17 0) rfl false

/-- Abstract X.509 certificate handle of the external OpenSSL object
model: its DER encoding (what `i2d_X509` / `X509PopCertificate` yield),
and its subject and issuer names (what `X509_get_subject_name` /
`X509_get_issuer_name` compare), names abstracted to naturals. -/
structure X509Cert where
  der : List Nat
  subject : Nat
  issuer : Nat
deriving DecidableEq, Repr

/-- One PKCS7 signer-info record of the decoded object: the signer
certificate as resolved by the external `PKCS7_get0_signers` lookup
(`none` when the lookup fails), and the `enc_digest` field that
`Pkcs7GetSignature` reads (`none` models a NULL `enc_digest`). -/
structure SignerInfo where
  cert : Option X509Cert
  encDigest : Option (List Nat)
deriving DecidableEq, Repr

/-- The decoded SignedData object produced by the external `d2i_PKCS7`
decoder: the `PKCS7_type_is_signed` flag, the signer-info stack, and the
embedded certificate stack `d.sign->cert` (`none` models a NULL stack). -/
structure SignedData where
  isSigned : Bool
  signerInfos : List SignerInfo
  certs : Option (List X509Cert)
deriving DecidableEq, Repr

/-- Resolves each signer info to its certificate, failing (NULL) as soon
as one lookup fails — the per-signer loop inside the external
`PKCS7_get0_signers`. -/
def resolveCerts : List SignerInfo → Option (List X509Cert)
  | [] => some []
  | si :: rest =>
    match si.cert, resolveCerts rest with
    | some c, some cs => some (c :: cs)
    | _, _ => none

/-- The external `PKCS7_get0_signers (Pkcs7, NULL, PKCS7_BINARY)`: NULL
when there are no signer infos or some signer certificate cannot be
found, otherwise the stack of signer certificates in signer-info order. -/
def get0Signers (sd : SignedData) : Option (List X509Cert) :=
  match sd.signerInfos with
  | [] => none
  | _ => resolveCerts sd.signerInfos

/-- Little-endian 4-byte encoding written by
`WriteUnaligned32 ((UINT32 *) p, (UINT32) n)` on the little-endian UEFI
targets of this code (the value is truncated to 32 bits). -/
def le32 (n : Nat) : List Nat :=
  [n % 256, n / 2 ^ 8 % 256, n / 2 ^ 16 % 256, n / 2 ^ 24 % 256]

/-- The certificate-stack serialisation loop shared by `Pkcs7GetSigners`
(source lines 365-391) and both loops of `Pkcs7GetCertificatesList`
(source lines 659-686 and 703-730), over the sequence of DER buffers
popped from the stack.  State mirrors the C locals: `acc` is `CertBuf`
(`none` = NULL; the leading count byte is uninitialised until after the
loop, modelled as 0), `size` is `BufferSize`, `old` is `OldSize`, `idx`
is the UINT8 `Index`.  Each iteration reallocates to
`OldSize + CertSize + 4`, copies the old contents forward and appends the
4-byte length followed by the DER bytes.  This definition describes the
executions in which every per-iteration `malloc` succeeds; `serLoopA`
below is the same loop with an explicit allocation oracle and the
allocation-failure branch. -/
def serLoop : List (List Nat) → Option (List Nat) → Nat → Nat → Nat →
    Option (List Nat) × Nat × Nat × Nat
  | [], acc, size, old, idx => (acc, size, old, idx)
  | c :: rest, acc, size, _, idx =>
    serLoop rest (some ((acc.getD [0]) ++ le32 c.length ++ c))
      (size + c.length + 4) size (idx + 1)

/-- The records part of the serialised certificate list as the
specification describes it: the `(4-byte length, DER bytes)` records of
the popped certificates concatenated in pop order. -/
def serBody : List (List Nat) → List Nat
  | [] => []
  | c :: rest => le32 c.length ++ c ++ serBody rest

/-- Serialised-list output of one drain loop as `Pkcs7GetCertificatesList`
consumes it: the finished buffer with its count byte patched to `Index`
(mod 256, the UINT8 width), and `BufferSize`; `(none, 0)` when zero
certificates were popped (`CertBuf` stayed NULL and the out-parameters
keep their initial NULL/0). -/
def serListOut (pops : List (List Nat)) : Option (List Nat) × Nat :=
  match serLoop pops none 1 1 0 with
  | (some buf, size, _, idx) => (some (buf.set 0 (idx % 256)), size)
  | (none, _, _, _) => (none, 0)

/-- Caller-visible effect of `Pkcs7GetSigners`: returned BOOLEAN and the
four out-parameters, `none` when the function never wrote through the
pointer. -/
structure GetSignersOut where
  ret : Bool
  certStack : Option (List Nat)
  stackLength : Option Nat
  trustedCert : Option (List Nat)
  certLength : Option Nat
deriving DecidableEq, Repr

/-- The serialisation tail of `Pkcs7GetSigners` (source lines 362-441)
applied to the DER buffers popped off the signer stack, in pop order.
When at least one certificate was popped (`CertBuf != NULL`) the count
byte is patched, `*CertLength` gets `BufferSize - OldSize - 4`,
`*TrustedCert` a copy of the bytes of the last record (the last-popped
certificate), `*CertStack` the buffer, `*StackLength` `BufferSize`, and
the call succeeds; with zero pops `CertBuf` is NULL, nothing is written
and the call returns FALSE.  Allocations are taken to succeed here;
`Pkcs7GetSignersSerializeA` adds the failure paths of the per-iteration
and `*TrustedCert` mallocs. -/
def Pkcs7GetSignersSerialize (pops : List (List Nat)) : GetSignersOut :=
  match serLoop pops none 1 1 0 with
  | (some buf, size, old, idx) =>
    { ret := true
      certStack := some (buf.set 0 (idx % 256))
      stackLength := some size
      trustedCert := some (((buf.set 0 (idx % 256)).drop (old + 4)).take (size - old - 4))
      certLength := some (size - old - 4) }
  | (none, _, _, _) =>
    { ret := false, certStack := none, stackLength := none
      trustedCert := none, certLength := none }

/-- Embedding of `Pkcs7GetSigners` (source lines 281-441) from the decoded
SignedData object on: type check, signer retrieval, then the drain loop
over the signer stack (popping reverses the stack order). -/
def Pkcs7GetSigners (sd : Option SignedData) : GetSignersOut :=
  match sd with
  | none => { ret := false, certStack := none, stackLength := none
              trustedCert := none, certLength := none }
  | some sd =>
    if sd.isSigned then
      match get0Signers sd with
      | none => { ret := false, certStack := none, stackLength := none
                  trustedCert := none, certLength := none }
      | some sg => Pkcs7GetSignersSerialize (sg.reverse.map X509Cert.der)
    else
      { ret := false, certStack := none, stackLength := none
        trustedCert := none, certLength := none }

/-- The external `X509_find_by_subject`: first certificate of the stack
whose subject name equals the sought name, if any. -/
def findBySubject (l : List X509Cert) (n : Nat) : Option X509Cert :=
  l.find? (fun c => c.subject == n)

/-- The external `sk_X509_delete_ptr`: removes the first occurrence of the
given certificate from the stack; a no-op when it is not present. -/
def eraseFirst : List X509Cert → X509Cert → List X509Cert
  | [], _ => []
  | c :: rest, x => if c = x then rest else c :: eraseFirst rest x

theorem eraseFirst_sublist (l : List X509Cert) (x : X509Cert) :
    (eraseFirst l x).Sublist l := by
  induction l with
  | nil => simp [eraseFirst]
  | cons c rest ih =>
    by_cases h : c = x
    · simp [eraseFirst, h]
    · simpa [eraseFirst, h] using ih.cons₂ c

theorem eraseFirst_length_lt {l : List X509Cert} {x : X509Cert} (h : x ∈ l) :
    (eraseFirst l x).length < l.length := by
  induction l with
  | nil => simp at h
  | cons c rest ih =>
    by_cases hc : c = x
    · simp [eraseFirst, hc]
    · have hx : x ∈ rest := by
        rcases List.mem_cons.mp h with h1 | h1
        · exact absurd h1.symm hc
        · exact h1
      simpa [eraseFirst, hc] using ih hx

theorem not_mem_eraseFirst_self {l : List X509Cert} {x : X509Cert}
    (h : l.Nodup) : x ∉ eraseFirst l x := by
  induction l with
  | nil => simp [eraseFirst]
  | cons c rest ih =>
    by_cases hc : c = x
    · subst hc
      simpa [eraseFirst] using (List.nodup_cons.mp h).1
    · intro hmem
      rcases List.mem_cons.mp (by simpa [eraseFirst, hc] using hmem) with h1 | h1
      · exact hc h1.symm
      · exact ih (List.nodup_cons.mp h).2 h1

theorem findBySubject_mem {l : List X509Cert} {n : Nat} {c : X509Cert}
    (h : findBySubject l n = some c) : c ∈ l :=
  List.mem_of_find?_eq_some h

/-- The issuer-chain walk of `Pkcs7GetCertificatesList` (source lines
609-641).  The trusted-store lookup `X509_STORE_CTX_get1_issuer` finds
nothing because the context was initialised with a NULL store, so the
loop repeatedly looks the current certificate's issuer name up in the
untrusted pool (`X509_find_by_subject`); on a hit the issuer is pushed
onto the chain and deleted from the pool and the walk continues from it;
otherwise the walk stops.  Arguments mirror `Cert`, `CtxChain`,
`CtxUntrusted`; the result is the final chain and untrusted stacks. -/
def chainWalk (cert : X509Cert) (chain : List X509Cert) (unt : List X509Cert) :
    List X509Cert × List X509Cert :=
  match h : findBySubject unt cert.issuer with
  | none => (chain, unt)
  | some issuer => chainWalk issuer (chain ++ [issuer]) (eraseFirst unt issuer)
termination_by unt.length
decreasing_by
  exact eraseFirst_length_lt (findBySubject_mem h)

/-- Caller-visible effect of `Pkcs7GetCertificatesList`.  The function
nulls and zeroes all four out-parameters right after its parameter checks,
so the fields hold final values (`none` = pointer left NULL). -/
structure GetCertsOut where
  ret : Bool
  signerChainCerts : Option (List Nat)
  chainLength : Nat
  unchainCerts : Option (List Nat)
  unchainLength : Nat
deriving DecidableEq, Repr

/-- The all-NULL/zero failure outputs of `Pkcs7GetCertificatesList`. -/
def failCerts : GetCertsOut :=
  { ret := false, signerChainCerts := none, chainLength := 0
    unchainCerts := none, unchainLength := 0 }

/-- Embedding of `Pkcs7GetCertificatesList` (source lines 484-779) from
the decoded SignedData object on: require type signed; require the signer
stack to exist with exactly one signer; seed the chain with that signer
(the verify context's chain is NULL before verification, so the code
builds a fresh stack holding the context certificate); delete one
occurrence of the signer from the untrusted pool (the embedded
certificate stack, when non-NULL); run the issuer walk; then serialise
the chain stack and the remaining untrusted stack independently via the
drain loop (pop order reverses each stack) and return TRUE.  Allocations
are taken to succeed here; `Pkcs7GetCertificatesListA` adds the
serialisation allocation-failure paths and coincides with this
definition under an always-succeeding allocator
(`getCertificatesListA_allocOk`). -/
def Pkcs7GetCertificatesList (sd : Option SignedData) : GetCertsOut :=
  match sd with
  | none => failCerts
  | some sd =>
    if sd.isSigned then
      match get0Signers sd with
      | some [signer] =>
        let walk : List X509Cert × Option (List X509Cert) :=
          match sd.certs with
          | none => ([signer], none)
          | some certs =>
            let r := chainWalk signer [signer] (eraseFirst certs signer)
            (r.1, some r.2)
        let co := serListOut (walk.1.reverse.map X509Cert.der)
        let uo : Option (List Nat) × Nat :=
          match walk.2 with
          | none => (none, 0)
          | some unt => serListOut (unt.reverse.map X509Cert.der)
        { ret := true, signerChainCerts := co.1, chainLength := co.2
          unchainCerts := uo.1, unchainLength := uo.2 }
      | _ => failCerts
    else failCerts

/-- Caller-visible effect of `Pkcs7GetSignature`: returned BOOLEAN, the
value written to `*SignatureLength` (`none` = never written), and the
bytes copied into the caller-supplied destination buffer (`none` = the
destination was never written). -/
structure GetSigOut where
  ret : Bool
  signatureLength : Option Nat
  copied : Option (List Nat)
deriving DecidableEq, Repr

/-- Embedding of `Pkcs7GetSignature` (source lines 980-1078) from the
decoded SignedData object on.  `sigSupplied` models `Signature != NULL`
(the caller passed a destination slot) and `destNonNull` models
`*Signature != NULL` (the slot holds a pre-allocated buffer).  The code
requires type signed and exactly one signer info, reads its `enc_digest`
(failing on NULL), writes `*SignatureLength` before deciding anything
else, and only then: with no destination slot it falls through with
`Status` still FALSE; with a slot holding NULL it fails; otherwise it
copies the digest bytes and succeeds. -/
def Pkcs7GetSignature (sd : Option SignedData) (sigSupplied destNonNull : Bool) :
    GetSigOut :=
  match sd with
  | none => { ret := false, signatureLength := none, copied := none }
  | some sd =>
    if sd.isSigned then
      match sd.signerInfos with
      | [si] =>
        match si.encDigest with
        | none => { ret := false, signatureLength := none, copied := none }
        | some dg =>
          if sigSupplied then
            if destNonNull then
              { ret := true, signatureLength := some dg.length, copied := some dg }
            else
              { ret := false, signatureLength := some dg.length, copied := none }
          else
            { ret := false, signatureLength := some dg.length, copied := none }
      | _ => { ret := false, signatureLength := none, copied := none }
    else { ret := false, signatureLength := none, copied := none }

/-- Total size of the records of the popped certificates: 4 length bytes
plus the DER bytes for each. -/
def recSum (pops : List (List Nat)) : Nat :=
  (pops.map (fun c => 4 + c.length)).sum

theorem serBody_length (pops : List (List Nat)) :
    (serBody pops).length = recSum pops := by
  induction pops with
  | nil => simp [serBody, recSum]
  | cons c rest ih =>
    simp [serBody, recSum, le32, List.length_append, ih]
    simp [recSum] at ih
    omega

theorem serLoop_some (pops : List (List Nat)) :
    ∀ (b : List Nat) (s o i : Nat), ∃ o',
      serLoop pops (some b) s o i =
        (some (b ++ serBody pops), s + recSum pops, o', i + pops.length) := by
  induction pops with
  | nil =>
    intro b s o i
    exact ⟨o, by simp [serLoop, serBody, recSum]⟩
  | cons c rest ih =>
    intro b s o i
    obtain ⟨o', ho'⟩ := ih (b ++ le32 c.length ++ c) (s + c.length + 4) s (i + 1)
    refine ⟨o', ?_⟩
    rw [serLoop]
    simp only [Option.getD_some]
    rw [ho']
    simp only [Prod.mk.injEq]
    refine ⟨by simp [serBody], ?_, trivial, ?_⟩
    · simp only [recSum, List.map_cons, List.sum_cons]
      omega
    · simp only [List.length_cons]
      omega

theorem serLoop_run (c : List Nat) (rest : List (List Nat)) :
    ∃ o', serLoop (c :: rest) none 1 1 0 =
      (some (0 :: serBody (c :: rest)), 1 + recSum (c :: rest), o',
        (c :: rest).length) := by
  obtain ⟨o', ho'⟩ := serLoop_some rest ([0] ++ le32 c.length ++ c) (1 + c.length + 4) 1 1
  refine ⟨o', ?_⟩
  rw [serLoop]
  simp only [Option.getD_none]
  rw [ho']
  simp only [Prod.mk.injEq]
  refine ⟨by simp [serBody], ?_, trivial, ?_⟩
  · simp only [recSum, List.map_cons, List.sum_cons]
    omega
  · simp only [List.length_cons]
    omega

theorem serListOut_closed (pops : List (List Nat)) (h : pops ≠ []) :
    serListOut pops = (some ((pops.length % 256) :: serBody pops), 1 + recSum pops) := by
  match pops, h with
  | c :: rest, _ =>
    obtain ⟨o', ho'⟩ := serLoop_run c rest
    simp [serListOut, ho']

/-- C5: for 1 to 255 popped certificates `c1..cN` (pop order), the loop's
serialised buffer is exactly the count byte `N` followed by the
`(4-byte length, bytes)` records in pop order, its total size is
`1 + sum (4 + |ci|)` with no padding or trailing bytes, both as
`Pkcs7GetCertificatesList` consumes the loop and as `Pkcs7GetSigners`
stores it into `*CertStack` / `*StackLength`. -/
theorem C5_serialized_list_exact (pops : List (List Nat))
    (h1 : 1 ≤ pops.length) (h2 : pops.length ≤ 255) :
    serListOut pops = (some (pops.length :: serBody pops), 1 + recSum pops) ∧
    (pops.length :: serBody pops).length = 1 + (pops.map (fun c => 4 + c.length)).sum ∧
    (Pkcs7GetSignersSerialize pops).certStack = some (pops.length :: serBody pops) ∧
    (Pkcs7GetSignersSerialize pops).stackLength = some (1 + (pops.map (fun c => 4 + c.length)).sum) := by
  have hne : pops ≠ [] := by
    intro he; rw [he] at h1; simp at h1
  have hmod : pops.length % 256 = pops.length := Nat.mod_eq_of_lt (by omega)
  have hclosed := serListOut_closed pops hne
  rw [hmod] at hclosed
  refine ⟨hclosed, ?_, ?_, ?_⟩
  · simp only [List.length_cons, serBody_length, recSum]
    omega
  · match pops, hne with
    | c :: rest, _ =>
      obtain ⟨o', ho'⟩ := serLoop_run c rest
      simp [Pkcs7GetSignersSerialize, ho', hmod]
      simp only [List.length_cons] at h2
      omega
  · match pops, hne with
    | c :: rest, _ =>
      obtain ⟨o', ho'⟩ := serLoop_run c rest
      simp [Pkcs7GetSignersSerialize, ho', recSum]

/-- Witness for C5 at a single one-byte certificate. -/
theorem C5_serialized_list_exact_witness :
    serListOut [[0xAA]] = (some ([[0xAA]].length :: serBody [[0xAA]]), 1 + recSum [[0xAA]]) ∧
    ([[0xAA]].length :: serBody [[0xAA]]).length =
      1 + ([[0xAA]].map (fun c => 4 + c.length)).sum ∧
    (Pkcs7GetSignersSerialize [[0xAA]]).certStack =
      some ([[0xAA]].length :: serBody [[0xAA]]) ∧
    (Pkcs7GetSignersSerialize [[0xAA]]).stackLength =
      some (1 + ([[0xAA]].map (fun c => 4 + c.length)).sum) :=
  C5_serialized_list_exact [[0xAA]] (by decide) (by decide)

theorem resolveCerts_length :
    ∀ {l : List SignerInfo} {cs : List X509Cert},
      resolveCerts l = some cs → cs.length = l.length := by
  intro l
  induction l with
  | nil =>
    intro cs h
    simp [resolveCerts] at h
    simp [← h]
  | cons si rest ih =>
    intro cs h
    cases hc : si.cert with
    | none => simp [resolveCerts, hc] at h
    | some c =>
      cases hr : resolveCerts rest with
      | none => simp [resolveCerts, hc, hr] at h
      | some cs' =>
        simp [resolveCerts, hc, hr] at h
        simp [← h, ih hr]

theorem get0Signers_length {sd : SignedData} {cs : List X509Cert}
    (h : get0Signers sd = some cs) : cs.length = sd.signerInfos.length := by
  cases hl : sd.signerInfos with
  | nil => simp [get0Signers, hl] at h
  | cons si rest =>
    rw [get0Signers, hl] at h
    simp at h
    exact resolveCerts_length h

theorem getCertsList_ret_iff {sd : SignedData} :
    (Pkcs7GetCertificatesList (some sd)).ret = true ↔
      sd.isSigned = true ∧ ∃ x, get0Signers sd = some [x] := by
  by_cases hs : sd.isSigned
  · cases hg : get0Signers sd with
    | none => simp [Pkcs7GetCertificatesList, hs, hg, failCerts]
    | some sg =>
      match sg with
      | [] => simp [Pkcs7GetCertificatesList, hs, hg, failCerts]
      | [x] => simp [Pkcs7GetCertificatesList, hs, hg]
      | x :: y :: l => simp [Pkcs7GetCertificatesList, hs, hg, failCerts]
  · simp [Pkcs7GetCertificatesList, hs, failCerts]

theorem getSignature_ret_iff {sd : SignedData} {s d : Bool} :
    (Pkcs7GetSignature (some sd) s d).ret = true ↔
      sd.isSigned = true ∧ s = true ∧ d = true ∧
        ∃ si dg, sd.signerInfos = [si] ∧ si.encDigest = some dg := by
  by_cases hs : sd.isSigned
  · match hl : sd.signerInfos with
    | [] => simp [Pkcs7GetSignature, hs, hl]
    | [si] =>
      cases he : si.encDigest with
      | none => simp [Pkcs7GetSignature, hs, hl, he]
      | some dg =>
        cases s <;> cases d <;>
          simp [Pkcs7GetSignature, hs, hl, he]
    | si :: si' :: l => simp [Pkcs7GetSignature, hs, hl]
  · simp [Pkcs7GetSignature, hs]

/-- C6: `Pkcs7GetCertificatesList` and `Pkcs7GetSignature` can succeed
only when the decoded SignedData carries exactly one signer, and both fail
whenever the signer count is zero or at least two (the one-signer gates at
source lines 572-577 and 1034-1037). -/
theorem C6_signer_count_gate (sd : SignedData) (s d : Bool) :
    ((Pkcs7GetCertificatesList (some sd)).ret = true → sd.signerInfos.length = 1) ∧
    ((Pkcs7GetSignature (some sd) s d).ret = true → sd.signerInfos.length = 1) ∧
    (sd.signerInfos.length ≠ 1 →
      (Pkcs7GetCertificatesList (some sd)).ret = false ∧
      (Pkcs7GetSignature (some sd) s d).ret = false) := by
  refine ⟨?_, ?_, ?_⟩
  · intro h
    obtain ⟨-, x, hg⟩ := getCertsList_ret_iff.mp h
    have := get0Signers_length hg
    simpa using this.symm
  · intro h
    obtain ⟨-, -, -, si, dg, hl, -⟩ := getSignature_ret_iff.mp h
    simp [hl]
  · intro h
    constructor
    · cases hr : (Pkcs7GetCertificatesList (some sd)).ret with
      | false => rfl
      | true =>
        obtain ⟨-, x, hg⟩ := getCertsList_ret_iff.mp hr
        have := get0Signers_length hg
        simp at this
        exact absurd this.symm h
    · cases hr : (Pkcs7GetSignature (some sd) s d).ret with
      | false => rfl
      | true =>
        obtain ⟨-, -, -, si, dg, hl, -⟩ := getSignature_ret_iff.mp hr
        rw [hl] at h
        simp at h
/-- Witness for C6 at a decoded SignedData with zero signer infos: both
operations fail. -/
theorem C6_signer_count_gate_witness :
    (Pkcs7GetCertificatesList (some ⟨true, [], none⟩)).ret = false ∧
    (Pkcs7GetSignature (some ⟨true, [], none⟩) true true).ret = false :=
  (C6_signer_count_gate ⟨true, [], none⟩ true true).2.2 (by decide)

/-- C8 counterexample: the claim says a call made only to learn the
length (no destination buffer supplied) succeeds after reporting the
length.  On a well-formed single-signer input with a 1-byte signature,
the code writes `*SignatureLength` but leaves `Status` FALSE when
`Signature == NULL`, so the length-only call fails. -/
theorem C8_length_only_call_fails :
    Pkcs7GetSignature (some ⟨true, [⟨none, some [0xAB]⟩], none⟩) false false =
      { ret := false, signatureLength := some 1, copied := none } := rfl

/-- C8 amended: on a well-formed single-signer SignedData,
`Pkcs7GetSignature` writes the encrypted-digest length to
`*SignatureLength` and, when a destination buffer is supplied (a slot
with a non-null pre-allocated pointee), copies the raw signature bytes
and succeeds; a call without a destination buffer also reports the
length but returns FALSE. -/
theorem C8_signature_extraction (sd : SignedData) (si : SignerInfo)
    (dg : List Nat) (d : Bool) (h1 : sd.isSigned = true)
    (h2 : sd.signerInfos = [si]) (h3 : si.encDigest = some dg) :
    Pkcs7GetSignature (some sd) true true =
      { ret := true, signatureLength := some dg.length, copied := some dg } ∧
    Pkcs7GetSignature (some sd) false d =
      { ret := false, signatureLength := some dg.length, copied := none } := by
  constructor <;> simp [Pkcs7GetSignature, h1, h2, h3]

/-- Witness for C8 at a concrete single-signer input. -/
theorem C8_signature_extraction_witness :
    Pkcs7GetSignature (some ⟨true, [⟨none, some [0xAB, 0xCD]⟩], none⟩) true true =
      { ret := true, signatureLength := some [0xAB, 0xCD].length
        copied := some [0xAB, 0xCD] } ∧
    Pkcs7GetSignature (some ⟨true, [⟨none, some [0xAB, 0xCD]⟩], none⟩) false true =
      { ret := false, signatureLength := some [0xAB, 0xCD].length, copied := none } :=
  C8_signature_extraction ⟨true, [⟨none, some [0xAB, 0xCD]⟩], none⟩
    ⟨none, some [0xAB, 0xCD]⟩ [0xAB, 0xCD] true rfl rfl rfl

theorem chainWalk_nil (cert : X509Cert) (chain : List X509Cert) :
    chainWalk cert chain [] = (chain, []) := by
  rw [chainWalk.eq_def]
  rfl

/-- C9 counterexample: the claim says both operations still succeed when
zero certificates are popped.  The serialisation tail of
`Pkcs7GetSigners` with zero pops leaves `CertBuf` NULL, skips the output
block (where alone `Status` is set to TRUE) and returns FALSE. -/
theorem C9_get_signers_zero_pops_fails :
    Pkcs7GetSignersSerialize [] =
      { ret := false, certStack := none, stackLength := none
        trustedCert := none, certLength := none } := rfl

/-- C9 amended: with zero certificates popped, `Pkcs7GetCertificatesList`
does succeed and leaves the corresponding list output NULL with length 0
(here: the untrusted pool drains to nothing, the unchained outputs stay
NULL/0 and the call returns TRUE), but `Pkcs7GetSigners` returns FALSE
when zero certificates were popped, leaving its outputs untouched. -/
theorem C9_zero_certificates (signer : X509Cert) (dg : Option (List Nat)) :
    Pkcs7GetSignersSerialize [] =
      { ret := false, certStack := none, stackLength := none
        trustedCert := none, certLength := none } ∧
    (Pkcs7GetCertificatesList (some ⟨true, [⟨some signer, dg⟩], some [signer]⟩)).ret = true ∧
    (Pkcs7GetCertificatesList (some ⟨true, [⟨some signer, dg⟩], some [signer]⟩)).unchainCerts = none ∧
    (Pkcs7GetCertificatesList (some ⟨true, [⟨some signer, dg⟩], some [signer]⟩)).unchainLength = 0 := by
  have hg : get0Signers ⟨true, [⟨some signer, dg⟩], some [signer]⟩ = some [signer] := rfl
  refine ⟨rfl, ?_, ?_, ?_⟩ <;>
    simp [Pkcs7GetCertificatesList, hg, eraseFirst, chainWalk_nil, serListOut, serLoop]

/-- Witness for C9 at a concrete signer. -/
theorem C9_zero_certificates_witness :
    Pkcs7GetSignersSerialize [] =
      { ret := false, certStack := none, stackLength := none
        trustedCert := none, certLength := none } ∧
    (Pkcs7GetCertificatesList (some ⟨true, [⟨some ⟨[9], 5, 6⟩, none⟩],
        some [⟨[9], 5, 6⟩]⟩)).ret = true ∧
    (Pkcs7GetCertificatesList (some ⟨true, [⟨some ⟨[9], 5, 6⟩, none⟩],
        some [⟨[9], 5, 6⟩]⟩)).unchainCerts = none ∧
    (Pkcs7GetCertificatesList (some ⟨true, [⟨some ⟨[9], 5, 6⟩, none⟩],
        some [⟨[9], 5, 6⟩]⟩)).unchainLength = 0 :=
  C9_zero_certificates ⟨[9], 5, 6⟩ none
theorem chainWalk_stop {unt : List X509Cert} {cert : X509Cert}
    (chain : List X509Cert) (h : findBySubject unt cert.issuer = none) :
    chainWalk cert chain unt = (chain, unt) := by
  rw [chainWalk.eq_def, h]

theorem chainWalk_step {unt : List X509Cert} {cert issuer : X509Cert}
    (chain : List X509Cert) (h : findBySubject unt cert.issuer = some issuer) :
    chainWalk cert chain unt =
      chainWalk issuer (chain ++ [issuer]) (eraseFirst unt issuer) := by
  rw [chainWalk.eq_def, h]
/-- C7 amended: in the Leaf, Intermediate, Root(self-signed) scenario the
chain stack is built in the order context-certificate, Intermediate, Root
and the unchained output is empty — but the drain loop pops LIFO, so the
serialised records come out as Root, then Intermediate, then the
leaf/context certificate, the reverse of the claimed order. -/
theorem C7_chain_build_and_order (leaf ca root : X509Cert) (dg : Option (List Nat))
    (h1 : ca.subject = leaf.issuer) (h2 : root.subject = ca.issuer)
    (h3 : root.issuer = root.subject) :
    chainWalk leaf [leaf] [ca, root] = ([leaf, ca, root], []) ∧
    Pkcs7GetCertificatesList (some ⟨true, [⟨some leaf, dg⟩], some [leaf, ca, root]⟩) =
      { ret := true
        signerChainCerts := some (3 :: serBody [root.der, ca.der, leaf.der])
        chainLength := 1 + recSum [root.der, ca.der, leaf.der]
        unchainCerts := none
        unchainLength := 0 } := by
  have f1 : findBySubject [ca, root] leaf.issuer = some ca := by
    simp [findBySubject, List.find?, h1]
  have hw : chainWalk leaf [leaf] [ca, root] = ([leaf, ca, root], []) := by
    rw [chainWalk_step [leaf] f1]
    have e2 : eraseFirst [ca, root] ca = [root] := by simp [eraseFirst]
    rw [e2]
    have f2 : findBySubject [root] ca.issuer = some root := by
      simp [findBySubject, List.find?, h2]
    rw [chainWalk_step ([leaf] ++ [ca]) f2]
    have e3 : eraseFirst [root] root = [] := by simp [eraseFirst]
    rw [e3, chainWalk_nil]
    simp
  refine ⟨hw, ?_⟩
  have hg : get0Signers ⟨true, [⟨some leaf, dg⟩], some [leaf, ca, root]⟩ =
      some [leaf] := rfl
  have hlist : serListOut [root.der, ca.der, leaf.der] =
      (some (3 :: serBody [root.der, ca.der, leaf.der]),
        1 + recSum [root.der, ca.der, leaf.der]) := by
    simpa using serListOut_closed [root.der, ca.der, leaf.der] (by simp)
  have hnil : serListOut ([] : List (List Nat)) = (none, 0) := rfl
  simp [Pkcs7GetCertificatesList, hg, eraseFirst, hw, hlist, hnil]
/-- Witness for C7 at three concrete certificates forming the
Leaf, Intermediate, Root(self-signed) chain. -/
theorem C7_chain_build_and_order_witness :
    chainWalk ⟨[1], 10, 11⟩ [⟨[1], 10, 11⟩] [⟨[2], 11, 12⟩, ⟨[3], 12, 12⟩] =
      ([⟨[1], 10, 11⟩, ⟨[2], 11, 12⟩, ⟨[3], 12, 12⟩], []) ∧
    Pkcs7GetCertificatesList (some ⟨true, [⟨some ⟨[1], 10, 11⟩, none⟩],
        some [⟨[1], 10, 11⟩, ⟨[2], 11, 12⟩, ⟨[3], 12, 12⟩]⟩) =
      { ret := true
        signerChainCerts := some (3 :: serBody [[3], [2], [1]])
        chainLength := 1 + recSum [[3], [2], [1]]
        unchainCerts := none
        unchainLength := 0 } :=
  C7_chain_build_and_order ⟨[1], 10, 11⟩ ⟨[2], 11, 12⟩ ⟨[3], 12, 12⟩ none rfl rfl rfl

/-- C7 counterexample: in the concrete Leaf, Intermediate, Root scenario
(DER bytes `[1]`, `[2]`, `[3]`), the serialised chain list is the count 3
followed by the records of Root, Intermediate, Leaf — not the claimed
records of Leaf, Intermediate, Root. -/
theorem C7_records_root_first :
    (Pkcs7GetCertificatesList (some ⟨true, [⟨some ⟨[1], 10, 11⟩, none⟩],
        some [⟨[1], 10, 11⟩, ⟨[2], 11, 12⟩, ⟨[3], 12, 12⟩]⟩)).signerChainCerts =
      some [3, 1, 0, 0, 0, 3, 1, 0, 0, 0, 2, 1, 0, 0, 0, 1] ∧
    (Pkcs7GetCertificatesList (some ⟨true, [⟨some ⟨[1], 10, 11⟩, none⟩],
        some [⟨[1], 10, 11⟩, ⟨[2], 11, 12⟩, ⟨[3], 12, 12⟩]⟩)).signerChainCerts ≠
      some [3, 1, 0, 0, 0, 1, 1, 0, 0, 0, 2, 1, 0, 0, 0, 3] := by
  have f1 : findBySubject [⟨[2], 11, 12⟩, ⟨[3], 12, 12⟩]
      (X509Cert.issuer ⟨[1], 10, 11⟩) = some ⟨[2], 11, 12⟩ := rfl
  have f2 : findBySubject [⟨[3], 12, 12⟩]
      (X509Cert.issuer ⟨[2], 11, 12⟩) = some ⟨[3], 12, 12⟩ := rfl
  have hw : chainWalk ⟨[1], 10, 11⟩ [⟨[1], 10, 11⟩] [⟨[2], 11, 12⟩, ⟨[3], 12, 12⟩] =
      ([⟨[1], 10, 11⟩, ⟨[2], 11, 12⟩, ⟨[3], 12, 12⟩], []) := by
    rw [chainWalk_step _ f1]
    have e2 : eraseFirst [⟨[2], 11, 12⟩, ⟨[3], 12, 12⟩] ⟨[2], 11, 12⟩ =
        [⟨[3], 12, 12⟩] := rfl
    rw [e2, chainWalk_step _ f2]
    have e3 : eraseFirst [⟨[3], 12, 12⟩] ⟨[3], 12, 12⟩ = [] := rfl
    rw [e3, chainWalk_nil]
    simp
  have hg : get0Signers ⟨true, [⟨some ⟨[1], 10, 11⟩, none⟩],
      some [⟨[1], 10, 11⟩, ⟨[2], 11, 12⟩, ⟨[3], 12, 12⟩]⟩ = some [⟨[1], 10, 11⟩] := rfl
  have hlist : serListOut [[3], [2], [1]] =
      (some [3, 1, 0, 0, 0, 3, 1, 0, 0, 0, 2, 1, 0, 0, 0, 1], 16) := by
    have h := serListOut_closed [[3], [2], [1]] (by simp)
    simp only [h]
    simp [serBody, le32, recSum]
  have hnil : serListOut ([] : List (List Nat)) = (none, 0) := rfl
  constructor
  · simp [Pkcs7GetCertificatesList, hg, eraseFirst, hw, hlist, hnil]
  · simp [Pkcs7GetCertificatesList, hg, eraseFirst, hw, hlist, hnil]
theorem chainWalk_sublist_aux :
    ∀ (n : Nat) (unt : List X509Cert), unt.length ≤ n →
      ∀ (cert : X509Cert) (chain : List X509Cert),
        (chainWalk cert chain unt).2.Sublist unt := by
  intro n
  induction n with
  | zero =>
    intro unt h cert chain
    have : unt = [] := List.length_eq_zero.mp (Nat.le_zero.mp h)
    subst this
    rw [chainWalk_nil]
  | succ n ih =>
    intro unt h cert chain
    cases hf : findBySubject unt cert.issuer with
    | none =>
      rw [chainWalk_stop chain hf]
    | some issuer =>
      rw [chainWalk_step chain hf]
      have hlt := eraseFirst_length_lt (findBySubject_mem hf)
      have hs := ih (eraseFirst unt issuer) (by omega) issuer (chain ++ [issuer])
      exact hs.trans (eraseFirst_sublist unt issuer)

theorem chainWalk_sublist (cert : X509Cert) (chain unt : List X509Cert) :
    (chainWalk cert chain unt).2.Sublist unt :=
  chainWalk_sublist_aux unt.length unt le_rfl cert chain

theorem chainWalk_disjoint_aux :
    ∀ (n : Nat) (unt : List X509Cert), unt.length ≤ n →
      ∀ (cert : X509Cert) (chain : List X509Cert),
        unt.Nodup → (∀ c ∈ chain, c ∉ unt) →
        ∀ c ∈ (chainWalk cert chain unt).1, c ∉ (chainWalk cert chain unt).2 := by
  intro n
  induction n with
  | zero =>
    intro unt h cert chain hnd hch
    have : unt = [] := List.length_eq_zero.mp (Nat.le_zero.mp h)
    subst this
    rw [chainWalk_nil]
    simp
  | succ n ih =>
    intro unt h cert chain hnd hch
    cases hf : findBySubject unt cert.issuer with
    | none =>
      rw [chainWalk_stop chain hf]
      exact hch
    | some issuer =>
      rw [chainWalk_step chain hf]
      have hlt := eraseFirst_length_lt (findBySubject_mem hf)
      refine ih (eraseFirst unt issuer) (by omega) issuer (chain ++ [issuer])
        (hnd.sublist (eraseFirst_sublist unt issuer)) ?_
      intro c hc
      rcases List.mem_append.mp hc with hc1 | hc1
      · intro hmem
        exact hch c hc1 ((eraseFirst_sublist unt issuer).subset hmem)
      · have : c = issuer := by simpa using hc1
        subst this
        exact not_mem_eraseFirst_self hnd

/-- C10 amended: the code removes the signer certificate (one pointer
occurrence, `sk_X509_delete_ptr`) from the untrusted pool before the
walk, and removes every consumed issuer from the pool as it is appended
to the chain; hence, provided the embedded certificate list has no
duplicates, the signer never remains in the leftover pool and the chain
and the leftover untrusted pool (the source of the unchained serialised
list) are disjoint.  With a duplicated certificate the deletions remove
only one occurrence and the disjointness fails (see the counterexample). -/
theorem C10_chain_untrusted_disjoint (signer : X509Cert)
    (certs : List X509Cert) (h : certs.Nodup) :
    signer ∉ (chainWalk signer [signer] (eraseFirst certs signer)).2 ∧
    ∀ c ∈ (chainWalk signer [signer] (eraseFirst certs signer)).1,
      c ∉ (chainWalk signer [signer] (eraseFirst certs signer)).2 := by
  have hnotin : signer ∉ eraseFirst certs signer := not_mem_eraseFirst_self h
  have hnd : (eraseFirst certs signer).Nodup := h.sublist (eraseFirst_sublist certs signer)
  constructor
  · intro hmem
    exact hnotin ((chainWalk_sublist signer [signer] (eraseFirst certs signer)).subset hmem)
  · refine chainWalk_disjoint_aux (eraseFirst certs signer).length _ le_rfl signer [signer]
      hnd ?_
    intro c hc
    have : c = signer := by simpa using hc
    subst this
    exact hnotin

/-- Witness for C10 at a concrete signer and duplicate-free pool. -/
theorem C10_chain_untrusted_disjoint_witness :
    (⟨[9], 5, 6⟩ : X509Cert) ∉
      (chainWalk ⟨[9], 5, 6⟩ [⟨[9], 5, 6⟩]
        (eraseFirst [⟨[9], 5, 6⟩, ⟨[7], 6, 6⟩] ⟨[9], 5, 6⟩)).2 :=
  (C10_chain_untrusted_disjoint ⟨[9], 5, 6⟩ [⟨[9], 5, 6⟩, ⟨[7], 6, 6⟩] (by decide)).1

/-- C10 counterexample: when the embedded certificate set holds two
copies of the signer certificate, `sk_X509_delete_ptr` removes only one,
the duplicate survives the walk, and the successful call emits the
signer's record in the unchained output — identical to the chained
output, so the two serialised lists are not disjoint either. -/
theorem C10_duplicate_signer_in_unchained :
    (Pkcs7GetCertificatesList (some ⟨true, [⟨some ⟨[9], 5, 6⟩, none⟩],
        some [⟨[9], 5, 6⟩, ⟨[9], 5, 6⟩]⟩)).ret = true ∧
    (Pkcs7GetCertificatesList (some ⟨true, [⟨some ⟨[9], 5, 6⟩, none⟩],
        some [⟨[9], 5, 6⟩, ⟨[9], 5, 6⟩]⟩)).unchainCerts =
      some [1, 1, 0, 0, 0, 9] ∧
    (Pkcs7GetCertificatesList (some ⟨true, [⟨some ⟨[9], 5, 6⟩, none⟩],
        some [⟨[9], 5, 6⟩, ⟨[9], 5, 6⟩]⟩)).signerChainCerts =
      some [1, 1, 0, 0, 0, 9] := by
  have f1 : findBySubject [⟨[9], 5, 6⟩] (X509Cert.issuer ⟨[9], 5, 6⟩) = none := rfl
  have hw : chainWalk ⟨[9], 5, 6⟩ [⟨[9], 5, 6⟩] [⟨[9], 5, 6⟩] =
      ([⟨[9], 5, 6⟩], [⟨[9], 5, 6⟩]) := chainWalk_stop _ f1
  have hg : get0Signers ⟨true, [⟨some ⟨[9], 5, 6⟩, none⟩],
      some [⟨[9], 5, 6⟩, ⟨[9], 5, 6⟩]⟩ = some [⟨[9], 5, 6⟩] := rfl
  have hlist : serListOut [[9]] = (some [1, 1, 0, 0, 0, 9], 6) := by
    have h := serListOut_closed [[9]] (by simp)
    simp only [h]
    simp [serBody, le32, recSum]
  refine ⟨?_, ?_, ?_⟩ <;>
    simp [Pkcs7GetCertificatesList, hg, eraseFirst, hw, hlist]
/-- Outcome of the allocation-aware drain loop: the per-iteration `malloc`
of the grown accumulator failed (`allocFail`), or the loop completed with
the `CertBuf`/`BufferSize`/`OldSize`/`Index` state and the next allocation
counter `k`. -/
inductive SerLoopResult where
  | allocFail
  | ok (acc : Option (List Nat)) (size old idx k : Nat)
deriving DecidableEq, Repr

/-- The drain loop with its per-iteration `malloc` made explicit:
`alloc k` is the success of the k-th modelled allocation.  In the source
each iteration allocates the grown accumulator (lines 374, 668, 711);
a NULL result aborts the loop (`goto _Exit` at lines 376-378, where in
`Pkcs7GetSigners` `Status` still holds TRUE from the successful pop, and
`Status = FALSE; goto _Error` at lines 670-673 and 713-716 in
`Pkcs7GetCertificatesList`).  With an always-succeeding allocator this is
exactly `serLoop` (`serLoopA_allocOk`). -/
def serLoopA (alloc : Nat → Bool) :
    List (List Nat) → Option (List Nat) → Nat → Nat → Nat → Nat → SerLoopResult
  | [], acc, size, old, idx, k => .ok acc size old idx k
  | c :: rest, acc, size, _, idx, k =>
    if alloc k then
      serLoopA alloc rest (some ((acc.getD [0]) ++ le32 c.length ++ c))
        (size + c.length + 4) size (idx + 1) (k + 1)
    else .allocFail

theorem serLoopA_allocOk (pops : List (List Nat)) :
    ∀ (acc : Option (List Nat)) (size old idx k : Nat)
      (acc' : Option (List Nat)) (size' old' idx' : Nat),
      serLoop pops acc size old idx = (acc', size', old', idx') →
      serLoopA (fun _ => true) pops acc size old idx k =
        .ok acc' size' old' idx' (k + pops.length) := by
  induction pops with
  | nil =>
    intro acc size old idx k acc' size' old' idx' h
    simp [serLoop] at h
    obtain ⟨rfl, rfl, rfl, rfl⟩ := h
    simp [serLoopA]
  | cons c rest ih =>
    intro acc size old idx k acc' size' old' idx' h
    rw [serLoop] at h
    have hrec := ih (some ((acc.getD [0]) ++ le32 c.length ++ c))
      (size + c.length + 4) size (idx + 1) (k + 1) acc' size' old' idx' h
    simp only [serLoopA, if_true]
    rw [hrec]
    congr 1
    simp only [List.length_cons]
    omega

/-- Caller-visible effect of `Pkcs7GetSigners` with written-NULL pointers
distinguished from never-written ones: `none` = the function never wrote
through the pointer, `some none` = it wrote NULL, `some (some v)` = it
wrote a buffer `v`. -/
structure GetSignersOutA where
  ret : Bool
  certStack : Option (Option (List Nat))
  stackLength : Option Nat
  trustedCert : Option (Option (List Nat))
  certLength : Option Nat
deriving DecidableEq, Repr

/-- The serialisation tail of `Pkcs7GetSigners` (source lines 362-441)
with its allocations explicit.  A per-iteration `malloc` failure does
`goto _Exit` while `Status` still holds TRUE from the successful pop
(lines 366, 374-378), so the call returns TRUE with none of the four
out-parameters written.  After a completed loop with at least one pop,
`*CertLength` is written, then `*TrustedCert = malloc (*CertLength)`
(lines 399-400): on its failure the function reaches the cleanup with
`Status == FALSE` and `CertBuf != NULL`, which frees the buffer and
writes `*CertStack = NULL` (lines 431-434), returning FALSE with
`*CertLength` exposed and both pointers written NULL. -/
def Pkcs7GetSignersSerializeA (alloc : Nat → Bool) (pops : List (List Nat)) :
    GetSignersOutA :=
  match serLoopA alloc pops none 1 1 0 0 with
  | .allocFail =>
    { ret := true, certStack := none, stackLength := none
      trustedCert := none, certLength := none }
  | .ok none _ _ _ _ =>
    { ret := false, certStack := none, stackLength := none
      trustedCert := none, certLength := none }
  | .ok (some buf) size old idx k =>
    if alloc k then
      { ret := true
        certStack := some (some (buf.set 0 (idx % 256)))
        stackLength := some size
        trustedCert := some (some (((buf.set 0 (idx % 256)).drop (old + 4)).take (size - old - 4)))
        certLength := some (size - old - 4) }
    else
      { ret := false
        certStack := some none
        stackLength := none
        trustedCert := some none
        certLength := some (size - old - 4) }

/-- With an always-succeeding allocator the allocation-aware serialisation
tail coincides with `Pkcs7GetSignersSerialize` (written pointers carrying
their buffers). -/
theorem getSignersSerializeA_allocOk (pops : List (List Nat)) :
    Pkcs7GetSignersSerializeA (fun _ => true) pops =
      { ret := (Pkcs7GetSignersSerialize pops).ret
        certStack := ((Pkcs7GetSignersSerialize pops).certStack).map some
        stackLength := (Pkcs7GetSignersSerialize pops).stackLength
        trustedCert := ((Pkcs7GetSignersSerialize pops).trustedCert).map some
        certLength := (Pkcs7GetSignersSerialize pops).certLength } := by
  rcases hser : serLoop pops none 1 1 0 with ⟨acc, size, old, idx⟩
  have hb := serLoopA_allocOk pops none 1 1 0 0 acc size old idx hser
  cases acc with
  | none => simp [Pkcs7GetSignersSerializeA, Pkcs7GetSignersSerialize, hb, hser]
  | some buf => simp [Pkcs7GetSignersSerializeA, Pkcs7GetSignersSerialize, hb, hser]

/-- `Pkcs7GetCertificatesList` with the serialisation allocations
explicit (the out-parameters are nulled and zeroed at entry, so
`GetCertsOut` fields are final pointer values).  A `malloc` failure in
the chain loop sets `Status = FALSE` and reaches the cleanup with the
outputs still NULL/0.  A `malloc` failure in the untrusted loop happens
after the chain outputs were published (lines 693-695) and with the
loop's own `CertBuf` reset to NULL (line 701), so the cleanup guard
`if (!Status && (CertBuf != NULL))` at line 772 does not fire: the call
returns FALSE with `*SignerChainCerts` and `*ChainLength` still holding
the published chain list — a partial result on a failure return. -/
def Pkcs7GetCertificatesListA (alloc : Nat → Bool) (sd : Option SignedData) :
    GetCertsOut :=
  match sd with
  | none => failCerts
  | some sd =>
    if sd.isSigned then
      match get0Signers sd with
      | some [signer] =>
        let walk : List X509Cert × Option (List X509Cert) :=
          match sd.certs with
          | none => ([signer], none)
          | some certs =>
            let r := chainWalk signer [signer] (eraseFirst certs signer)
            (r.1, some r.2)
        match serLoopA alloc (walk.1.reverse.map X509Cert.der) none 1 1 0 0 with
        | .allocFail => failCerts
        | .ok acc size _ idx k =>
          let co : Option (List Nat) × Nat :=
            match acc with
            | some buf => (some (buf.set 0 (idx % 256)), size)
            | none => (none, 0)
          match walk.2 with
          | none =>
            { ret := true, signerChainCerts := co.1, chainLength := co.2
              unchainCerts := none, unchainLength := 0 }
          | some unt =>
            match serLoopA alloc (unt.reverse.map X509Cert.der) none 1 1 0 k with
            | .allocFail =>
              { ret := false, signerChainCerts := co.1, chainLength := co.2
                unchainCerts := none, unchainLength := 0 }
            | .ok acc2 size2 _ idx2 _ =>
              let uo : Option (List Nat) × Nat :=
                match acc2 with
                | some buf2 => (some (buf2.set 0 (idx2 % 256)), size2)
                | none => (none, 0)
              { ret := true, signerChainCerts := co.1, chainLength := co.2
                unchainCerts := uo.1, unchainLength := uo.2 }
      | _ => failCerts
    else failCerts

/-- With an always-succeeding allocator the allocation-aware
`Pkcs7GetCertificatesListA` coincides with `Pkcs7GetCertificatesList`. -/
theorem getCertificatesListA_allocOk (sd : Option SignedData) :
    Pkcs7GetCertificatesListA (fun _ => true) sd = Pkcs7GetCertificatesList sd := by
  match sd with
  | none => rfl
  | some sd =>
    by_cases hs : sd.isSigned
    · cases hg : get0Signers sd with
      | none => simp [Pkcs7GetCertificatesListA, Pkcs7GetCertificatesList, hs, hg]
      | some sg =>
        match sg with
        | [] => simp [Pkcs7GetCertificatesListA, Pkcs7GetCertificatesList, hs, hg]
        | x :: y :: l => simp [Pkcs7GetCertificatesListA, Pkcs7GetCertificatesList, hs, hg]
        | [signer] =>
          cases hc : sd.certs with
          | none =>
            rcases h1 : serLoop [signer.der] none 1 1 0 with
              ⟨acc, size, old, idx⟩
            have hb1 := serLoopA_allocOk [signer.der]
              none 1 1 0 0 acc size old idx h1
            cases acc with
            | none =>
              simp [Pkcs7GetCertificatesListA, Pkcs7GetCertificatesList, serListOut,
                hs, hg, hc, hb1, h1]
            | some buf =>
              simp [Pkcs7GetCertificatesListA, Pkcs7GetCertificatesList, serListOut,
                hs, hg, hc, hb1, h1]
          | some certs =>
            rcases hw : chainWalk signer [signer] (eraseFirst certs signer) with ⟨ch, unt⟩
            rcases h1 : serLoop ((ch.map X509Cert.der).reverse) none 1 1 0 with
              ⟨acc, size, old, idx⟩
            have hb1 := serLoopA_allocOk ((ch.map X509Cert.der).reverse)
              none 1 1 0 0 acc size old idx h1
            rcases h2 : serLoop ((unt.map X509Cert.der).reverse) none 1 1 0 with
              ⟨acc2, size2, old2, idx2⟩
            have hb2 := serLoopA_allocOk ((unt.map X509Cert.der).reverse)
              none 1 1 0 ch.length acc2 size2 old2 idx2 h2
            cases acc with
            | none =>
              cases acc2 with
              | none =>
                simp [Pkcs7GetCertificatesListA, Pkcs7GetCertificatesList, serListOut,
                  hs, hg, hc, hw, hb1, h1, hb2, h2]
              | some buf2 =>
                simp [Pkcs7GetCertificatesListA, Pkcs7GetCertificatesList, serListOut,
                  hs, hg, hc, hw, hb1, h1, hb2, h2]
            | some buf =>
              cases acc2 with
              | none =>
                simp [Pkcs7GetCertificatesListA, Pkcs7GetCertificatesList, serListOut,
                  hs, hg, hc, hw, hb1, h1, hb2, h2]
              | some buf2 =>
                simp [Pkcs7GetCertificatesListA, Pkcs7GetCertificatesList, serListOut,
                  hs, hg, hc, hw, hb1, h1, hb2, h2]
    · simp [Pkcs7GetCertificatesListA, Pkcs7GetCertificatesList, hs]

/-- C2: the claim says no caller-visible output pointer or length is ever
written on a failure return.  Three failing executions refute it and
contradict the code's own cleanup intent (the `!Status` cleanup blocks
that null the output pointers): (1) `WrapPkcs7Data` on an unwrapped
17-byte input with its allocation failing returns FALSE having already
written `*WrapDataSize = 36` and `*WrapFlag`; (2) the `Pkcs7GetSigners`
serialisation tail, after one popped 1-byte certificate, with the
`*TrustedCert` allocation failing, returns FALSE having written
`*CertLength = 1` and both pointer outputs; (3) `Pkcs7GetCertificatesList`
with a one-record chain already published, when the allocation of the
unchained list fails (first modelled allocation succeeds, second fails),
returns FALSE with `*SignerChainCerts` still holding the chain buffer and
`*ChainLength = 6`, because the cleanup guard tests the untrusted loop's
`CertBuf`, which that loop reset to NULL. -/
theorem C2_alloc_failure_partial_results :
    WrapPkcs7Data (List.replicate 17 0) false =
      .done ⟨false, some false, some none, some (17 + 19)⟩ ∧
    Pkcs7GetSignersSerializeA (fun k => k == 0) [[9]] =
      { ret := false, certStack := some none, stackLength := none
        trustedCert := some none, certLength := some 1 } ∧
    Pkcs7GetCertificatesListA (fun k => k == 0)
        (some ⟨true, [⟨some ⟨[9], 5, 6⟩, none⟩], some [⟨[9], 5, 6⟩, ⟨[7], 8, 8⟩]⟩) =
      { ret := false, signerChainCerts := some [1, 1, 0, 0, 0, 9], chainLength := 6
        unchainCerts := none, unchainLength := 0 } := by
  refine ⟨rfl, rfl, ?_⟩
  have f1 : findBySubject [⟨[7], 8, 8⟩] (X509Cert.issuer ⟨[9], 5, 6⟩) = none := rfl
  have hw : chainWalk ⟨[9], 5, 6⟩ [⟨[9], 5, 6⟩] [⟨[7], 8, 8⟩] =
      ([⟨[9], 5, 6⟩], [⟨[7], 8, 8⟩]) := chainWalk_stop _ f1
  have hg : get0Signers ⟨true, [⟨some ⟨[9], 5, 6⟩, none⟩],
      some [⟨[9], 5, 6⟩, ⟨[7], 8, 8⟩]⟩ = some [⟨[9], 5, 6⟩] := rfl
  simp [Pkcs7GetCertificatesListA, hg, eraseFirst, hw, serLoopA, le32]
end EdkPkcs7
